import Mathlib

/-!
# Verification of the cross-page animated-mesh utility

Shallow embedding of `animated-mesh` (the persistence-and-interpolation
engine): the shared singleton state, the DOM geometry sampler
`getDOMState`, the per-frame `animate` tick with its `lerp`
interpolation, the `requestAnimationFrame` scheduling discipline
(start / fire / cleanup), and the `useCanvas` render-proxy
registration.

Pixel coordinates and smoothing factors are modelled as rationals; a
DOM element is modelled by its bounding rectangle, the window by its
inner dimensions.  The browser's frame scheduler is modelled
explicitly as a `World` carrying the list of pending one-shot
callbacks (handle, owning loop instance), so that cancellation and the
single-active-loop invariant can be stated and proved.
-/

/-- A three-component vector of rational pixel coordinates, standing in
for a three.js `Vector3`. -/
structure Vec3 where
  x : ℚ
  y : ℚ
  z : ℚ
  deriving DecidableEq, Repr

namespace Vector3

/-- three.js `Vector3.prototype.lerp`:
`this.x += (v.x - this.x) * alpha` componentwise. -/
def lerp (v target : Vec3) (alpha : ℚ) : Vec3 :=
  { x := v.x + (target.x - v.x) * alpha
    y := v.y + (target.y - v.y) * alpha
    z := v.z + (target.z - v.z) * alpha }

end Vector3

/-- The bounding rectangle returned by `getBoundingClientRect()`. -/
structure Rect where
  left : ℚ
  top : ℚ
  width : ℚ
  height : ℚ
  deriving DecidableEq, Repr

/-- The viewport dimensions `window.innerWidth` / `window.innerHeight`. -/
structure Viewport where
  innerWidth : ℚ
  innerHeight : ℚ
  deriving DecidableEq, Repr

/-- The `window.sharedMeshState` record: current interpolated position
and scale, plus the active `requestAnimationFrame` handle
(`animationId`, `0` meaning none, matching JS truthiness). -/
structure SharedMeshState where
  position : Vec3
  scale : Vec3
  animationId : ℕ
  deriving DecidableEq, Repr

/-- The state created on first access of `window.sharedMeshState`. -/
def initialSharedMeshState : SharedMeshState :=
  { position := ⟨0, 0, 0⟩
    scale := ⟨1, 1, 1⟩
    animationId := 0 }

/-- `getSharedMeshState()`: lazily creates `window.sharedMeshState` if
absent and returns it.  The global slot is threaded explicitly as an
`Option SharedMeshState`; the result pairs the returned state with the
slot after the call. -/
def getSharedMeshState :
    Option SharedMeshState → SharedMeshState × Option SharedMeshState
  | none => (initialSharedMeshState, some initialSharedMeshState)
  | some s => (s, some s)

/-- `getDOMState(element)`: samples the element's bounding rect and
converts its centre to the viewport-centred coordinate system
(origin at screen centre, Y up); the scale is the pixel size. -/
def getDOMState (rect : Rect) (win : Viewport) : Vec3 × Vec3 :=
  let position : Vec3 :=
    { x := rect.left + rect.width / 2 - win.innerWidth / 2
      y := -(rect.top + rect.height / 2 - win.innerHeight / 2)
      z := 0 }
  let scale : Vec3 := { x := rect.width, y := rect.height, z := 1 }
  (position, scale)

/-- The prop record pushed to the `useCanvas` update function each
tick: `{position, scale, visible}`. -/
structure ProxyUpdate where
  position : Vec3
  scale : Vec3
  visible : Bool
  deriving DecidableEq, Repr

/-- The configuration of one mounted `AnimatedMesh` loop instance:
its identity, the tracked element (`track.current`, `none` when
unset), the live viewport, the smoothing factor and the visibility
flag reported by `useTracker`. -/
structure LoopConfig where
  loopId : ℕ
  track : Option Rect
  viewport : Viewport
  lerpFactor : ℚ
  inViewport : Bool
  deriving DecidableEq, Repr

/-- The browser world: the shared singleton, the scheduler's list of
pending one-shot frame callbacks as `(handle, owning loop)` pairs, the
next fresh handle, the log of proxy updates pushed so far, and
counters for `requestRender` and `cancelAnimationFrame` calls. -/
structure World where
  shared : SharedMeshState
  pending : List (ℕ × ℕ)
  nextHandle : ℕ
  proxyUpdates : List ProxyUpdate
  renderRequests : ℕ
  cancelCalls : ℕ
  deriving DecidableEq, Repr

/-- `cancelAnimationFrame(h)`: remove the pending callback with handle
`h` (a no-op on the pending list when no such callback exists). -/
def cancelAnimationFrame (w : World) (h : ℕ) : World :=
  { w with
    pending := w.pending.filter (fun p => p.1 != h)
    cancelCalls := w.cancelCalls + 1 }

/-- `requestAnimationFrame(cb)` for loop `loopId`: schedule a fresh
one-shot callback and return its handle. -/
def requestAnimationFrame (w : World) (loopId : ℕ) : ℕ × World :=
  (w.nextHandle,
   { w with
     pending := w.pending ++ [(w.nextHandle, loopId)]
     nextHandle := w.nextHandle + 1 })

/-- One run of the `animate` callback body of loop `cfg`:
if `track.current` is unset, return immediately; otherwise sample the
element, lerp the shared position and scale toward it, push the
interpolated values (and the visibility flag) to the proxy, request a
render, and re-schedule, storing the new handle in `animationId`. -/
def animate (cfg : LoopConfig) (w : World) : World :=
  match cfg.track with
  | none => w
  | some elem =>
    let target := getDOMState elem cfg.viewport
    let pos := Vector3.lerp w.shared.position target.1 cfg.lerpFactor
    let scl := Vector3.lerp w.shared.scale target.2 cfg.lerpFactor
    let upd : ProxyUpdate :=
      { position := pos, scale := scl, visible := cfg.inViewport }
    let w1 : World :=
      { w with
        shared := { w.shared with position := pos, scale := scl }
        proxyUpdates := w.proxyUpdates ++ [upd]
        renderRequests := w.renderRequests + 1 }
    let hw := requestAnimationFrame w1 cfg.loopId
    { hw.2 with shared := { hw.2.shared with animationId := hw.1 } }

/-- The body of the mount `useEffect` (the Start step): if a prior
handle is stored in `animationId`, cancel it, then run the first tick
synchronously (which re-schedules itself). -/
def startLoop (cfg : LoopConfig) (w : World) : World :=
  let w1 := if w.shared.animationId ≠ 0
    then cancelAnimationFrame w w.shared.animationId
    else w
  animate cfg w1

/-- The scheduler fires pending callback `h` belonging to loop `cfg`:
the one-shot callback is removed from the pending list and its
`animate` body runs.  Firing a handle that is not pending (because it
was cancelled) does nothing. -/
def fireCallback (cfg : LoopConfig) (w : World) (h : ℕ) : World :=
  if (h, cfg.loopId) ∈ w.pending then
    animate cfg
      { w with pending := w.pending.filter (fun p => p.1 != h) }
  else w

/-- The `useEffect` cleanup (the Cancel step, run on unmount): if a
handle is stored, cancel it and clear `animationId` to `0`. -/
def cleanupLoop (w : World) : World :=
  if w.shared.animationId ≠ 0 then
    let w1 := cancelAnimationFrame w w.shared.animationId
    { w1 with shared := { w1.shared with animationId := 0 } }
  else w

/-- The world before any loop has ever run, with the singleton in its
freshly created state and no pending callbacks; `requestAnimationFrame`
handles start at `1`, as browser handles are nonzero. -/
def initialWorld : World :=
  { shared := initialSharedMeshState
    pending := []
    nextHandle := 1
    proxyUpdates := []
    renderRequests := 0
    cancelCalls := 0 }

/-- The props passed to the `useCanvas` registration of the mesh on
mount: position and scale are read from the shared singleton state,
visibility from the tracker, keyed by `id` with `dispose: false`. -/
structure CanvasRegistration where
  key : String
  dispose : Bool
  position : Vec3
  scale : Vec3
  visible : Bool
  deriving DecidableEq, Repr

/-- The `useCanvas(mesh, {...}, {key: id, dispose: false})` call of
`AnimatedMesh`, with initial props read from the shared state. -/
def registerMesh (id : String) (s : SharedMeshState) (inViewport : Bool) :
    CanvasRegistration :=
  { key := id
    dispose := false
    position := ⟨s.position.x, s.position.y, s.position.z⟩
    scale := ⟨s.scale.x, s.scale.y, s.scale.z⟩
    visible := inViewport }

/-- The mount path of `AnimatedMesh`: read (or lazily create) the
shared singleton, then register the persistent mesh with props taken
from it.  Returns the registration together with the global slot
after the mount. -/
def mountAnimatedMesh (id : String) (glob : Option SharedMeshState)
    (inViewport : Bool) : CanvasRegistration × Option SharedMeshState :=
  let sg := getSharedMeshState glob
  (registerMesh id sg.1 inViewport, sg.2)

/-- The scheduling invariant: at most one frame callback is pending,
every pending callback's handle is the one stored in `animationId`
and is nonzero, and the next fresh handle is nonzero. -/
def SchedInv (w : World) : Prop :=
  w.pending.length ≤ 1 ∧
  (∀ p ∈ w.pending, p.1 = w.shared.animationId ∧ p.1 ≠ 0) ∧
  0 < w.nextHandle

/-- The spec's interpolation scenario: a loop whose tracked element
samples to target position `(100, 0, 0)` under viewport `1000×800`
(`560 + 80/2 - 500 = 100`, `-(360 + 80/2 - 400) = 0`), with the
default smoothing factor `0.1`. -/
def scenarioConfig : LoopConfig :=
  { loopId := 1
    track := some { left := 560, top := 360, width := 80, height := 80 }
    viewport := { innerWidth := 1000, innerHeight := 800 }
    lerpFactor := 1 / 10
    inViewport := true }

/-- A loop instance whose tracked element reference is unset
(`track.current` is null). -/
def unsetConfig : LoopConfig :=
  { loopId := 2
    track := none
    viewport := { innerWidth := 1000, innerHeight := 800 }
    lerpFactor := 1 / 10
    inViewport := false }

/-- A world in which the unset-track loop instance has one pending
frame callback (handle `7`) and a stale `animationId` pointing at it. -/
def unsetWorld : World :=
  { shared :=
      { position := ⟨0, 0, 0⟩, scale := ⟨1, 1, 1⟩, animationId := 7 }
    pending := [(7, 2)]
    nextHandle := 8
    proxyUpdates := []
    renderRequests := 0
    cancelCalls := 0 }

/-! ## Supporting lemmas -/

theorem filter_ne_of_all_eq (l : List (ℕ × ℕ)) (h : ℕ)
    (hall : ∀ p ∈ l, p.1 = h) : l.filter (fun p => p.1 != h) = [] := by
  induction l with
  | nil => rfl
  | cons a t ih =>
    have ha : a.1 = h := hall a (List.mem_cons_self a t)
    have ht : ∀ p ∈ t, p.1 = h := fun p hp => hall p (List.mem_cons_of_mem a hp)
    rw [List.filter_cons]
    simp [ha, ih ht]

theorem animate_shared_of_track (cfg : LoopConfig) (w : World) (elem : Rect)
    (h : cfg.track = some elem) :
    (animate cfg w).shared.position =
      Vector3.lerp w.shared.position (getDOMState elem cfg.viewport).1
        cfg.lerpFactor ∧
    (animate cfg w).shared.scale =
      Vector3.lerp w.shared.scale (getDOMState elem cfg.viewport).2
        cfg.lerpFactor := by
  simp [animate, h, requestAnimationFrame]

theorem animate_of_track_none (cfg : LoopConfig) (w : World)
    (h : cfg.track = none) : animate cfg w = w := by
  simp [animate, h]

theorem animate_sched (cfg : LoopConfig) (w : World) (elem : Rect)
    (h : cfg.track = some elem) :
    (animate cfg w).pending = w.pending ++ [(w.nextHandle, cfg.loopId)] ∧
    (animate cfg w).shared.animationId = w.nextHandle ∧
    (animate cfg w).nextHandle = w.nextHandle + 1 := by
  simp [animate, h, requestAnimationFrame]

theorem schedInv_animate (cfg : LoopConfig) (w : World)
    (hp : w.pending = []) (hn : 0 < w.nextHandle) :
    SchedInv (animate cfg w) ∧
    ∀ p ∈ (animate cfg w).pending, p.2 = cfg.loopId := by
  cases htr : cfg.track with
  | none =>
    rw [animate_of_track_none cfg w htr]
    exact ⟨⟨by simp [hp], by simp [hp], hn⟩, by simp [hp]⟩
  | some elem =>
    obtain ⟨hpen, hid, hnx⟩ := animate_sched cfg w elem htr
    have hpen1 : (animate cfg w).pending = [(w.nextHandle, cfg.loopId)] := by
      rw [hpen, hp, List.nil_append]
    refine ⟨⟨?_, ?_, ?_⟩, ?_⟩
    · rw [hpen1]
      simp
    · intro p hpm
      rw [hpen1, List.mem_singleton] at hpm
      subst hpm
      exact ⟨hid.symm, by omega⟩
    · rw [hnx]
      omega
    · intro p hpm
      rw [hpen1, List.mem_singleton] at hpm
      subst hpm
      rfl

theorem fireCallback_not_mem (cfg : LoopConfig) (w : World) (h : ℕ)
    (hm : (h, cfg.loopId) ∉ w.pending) : fireCallback cfg w h = w := by
  simp [fireCallback, hm]

theorem cleanupLoop_of_id_zero (w : World) (h : w.shared.animationId = 0) :
    cleanupLoop w = w := by
  simp [cleanupLoop, h]

theorem cleanupLoop_animationId (w : World) :
    (cleanupLoop w).shared.animationId = 0 := by
  by_cases h : w.shared.animationId ≠ 0
  · simp [cleanupLoop, h, cancelAnimationFrame]
  · push_neg at h
    rw [cleanupLoop_of_id_zero w h]
    exact h

theorem cleanupLoop_pending_nil (w : World) (hw : SchedInv w) :
    (cleanupLoop w).pending = [] := by
  by_cases h : w.shared.animationId ≠ 0
  · simp only [cleanupLoop, if_pos h, cancelAnimationFrame]
    exact filter_ne_of_all_eq _ _ (fun p hp => (hw.2.1 p hp).1)
  · push_neg at h
    rw [cleanupLoop_of_id_zero w h]
    exact List.eq_nil_iff_forall_not_mem.mpr
      (fun p hp => (hw.2.1 p hp).2 (h ▸ (hw.2.1 p hp).1))

theorem fireCallback_of_pending_nil (cfg : LoopConfig) (w : World) (h : ℕ)
    (hp : w.pending = []) : fireCallback cfg w h = w := by
  apply fireCallback_not_mem
  rw [hp]
  exact List.not_mem_nil _

theorem startLoop_cleared_pending (w : World) (hw : SchedInv w) :
    (if w.shared.animationId ≠ 0
      then cancelAnimationFrame w w.shared.animationId
      else w).pending = [] := by
  by_cases h : w.shared.animationId ≠ 0
  · simp only [if_pos h, cancelAnimationFrame]
    exact filter_ne_of_all_eq _ _ (fun p hp => (hw.2.1 p hp).1)
  · rw [if_neg h]
    push_neg at h
    exact List.eq_nil_iff_forall_not_mem.mpr
      (fun p hp => (hw.2.1 p hp).2 (h ▸ (hw.2.1 p hp).1))

theorem schedInv_initialWorld : SchedInv initialWorld := by
  refine ⟨by simp [initialWorld], ?_, by simp [initialWorld]⟩
  intro p hp
  simp [initialWorld] at hp

/-! ## C1 : the geometry sampler formula -/

/-- C1: for every DOM element bounding rect and viewport, `getDOMState`
returns `position = (left + width/2 - vw/2, -(top + height/2 - vh/2), 0)`
and `scale = (width, height, 1)`; in particular rect
`{left:100, top:200, width:80, height:80}` with viewport `1000×800`
samples to position `(-360, 160, 0)` and scale `(80, 80, 1)`. -/
theorem getDOMState_spec :
    (∀ (rect : Rect) (win : Viewport),
      getDOMState rect win =
        (⟨rect.left + rect.width / 2 - win.innerWidth / 2,
          -(rect.top + rect.height / 2 - win.innerHeight / 2), 0⟩,
         ⟨rect.width, rect.height, 1⟩)) ∧
    getDOMState ⟨100, 200, 80, 80⟩ ⟨1000, 800⟩ =
      (⟨-360, 160, 0⟩, ⟨80, 80, 1⟩) := by
  refine ⟨fun rect win => rfl, ?_⟩
  simp only [getDOMState, Prod.mk.injEq, Vec3.mk.injEq]
  norm_num

/-! ## C6 : the singleton accessor -/

/-- C6: `getSharedMeshState` creates the state with position
`(0,0,0)`, scale `(1,1,1)` and no active loop handle on first call,
and every subsequent call returns the stored state unchanged, leaving
the global slot as it was. -/
theorem getSharedMeshState_singleton :
    getSharedMeshState none =
      ({ position := ⟨0, 0, 0⟩, scale := ⟨1, 1, 1⟩, animationId := 0 },
       some { position := ⟨0, 0, 0⟩, scale := ⟨1, 1, 1⟩, animationId := 0 }) ∧
    ∀ s : SharedMeshState, getSharedMeshState (some s) = (s, some s) := by
  exact ⟨rfl, fun s => rfl⟩

/-! ## C2 : the per-tick lerp recurrence -/

/-- C2: on every tick with a sampled target `T` and smoothing factor
`α`, the new shared state equals `old + (T - old) * α` componentwise
for both position and scale; in particular starting from position
`(0,0,0)` with target `(100,0,0)` and `α = 0.1`, the position is
`(10,0,0)` after tick 1 and `(19,0,0)` after tick 2. -/
theorem animate_lerp_recurrence :
    (∀ (cfg : LoopConfig) (w : World) (elem : Rect),
      cfg.track = some elem →
      (animate cfg w).shared.position =
        ⟨w.shared.position.x +
            ((getDOMState elem cfg.viewport).1.x - w.shared.position.x) *
              cfg.lerpFactor,
          w.shared.position.y +
            ((getDOMState elem cfg.viewport).1.y - w.shared.position.y) *
              cfg.lerpFactor,
          w.shared.position.z +
            ((getDOMState elem cfg.viewport).1.z - w.shared.position.z) *
              cfg.lerpFactor⟩ ∧
      (animate cfg w).shared.scale =
        ⟨w.shared.scale.x +
            ((getDOMState elem cfg.viewport).2.x - w.shared.scale.x) *
              cfg.lerpFactor,
          w.shared.scale.y +
            ((getDOMState elem cfg.viewport).2.y - w.shared.scale.y) *
              cfg.lerpFactor,
          w.shared.scale.z +
            ((getDOMState elem cfg.viewport).2.z - w.shared.scale.z) *
              cfg.lerpFactor⟩) ∧
    (getDOMState
        { left := 560, top := 360, width := 80, height := 80 }
        scenarioConfig.viewport).1 = ⟨100, 0, 0⟩ ∧
    initialWorld.shared.position = ⟨0, 0, 0⟩ ∧
    (animate scenarioConfig initialWorld).shared.position = ⟨10, 0, 0⟩ ∧
    (animate scenarioConfig
        (animate scenarioConfig initialWorld)).shared.position =
      ⟨19, 0, 0⟩ := by
  refine ⟨fun cfg w elem h => animate_shared_of_track cfg w elem h, ?_, rfl, ?_, ?_⟩
  · simp only [getDOMState, scenarioConfig, Vec3.mk.injEq]
    norm_num
  · simp only [animate, scenarioConfig, initialWorld, initialSharedMeshState,
      getDOMState, Vector3.lerp, requestAnimationFrame, Vec3.mk.injEq]
    norm_num
  · simp only [animate, scenarioConfig, initialWorld, initialSharedMeshState,
      getDOMState, Vector3.lerp, requestAnimationFrame, Vec3.mk.injEq]
    norm_num

/-- Witness for C2: the recurrence applied at the concrete scenario
configuration and the fresh world. -/
theorem animate_lerp_recurrence_witness :
    (animate scenarioConfig initialWorld).shared.position =
      ⟨initialWorld.shared.position.x +
          ((getDOMState { left := 560, top := 360, width := 80, height := 80 }
                scenarioConfig.viewport).1.x -
              initialWorld.shared.position.x) *
            scenarioConfig.lerpFactor,
        initialWorld.shared.position.y +
          ((getDOMState { left := 560, top := 360, width := 80, height := 80 }
                scenarioConfig.viewport).1.y -
              initialWorld.shared.position.y) *
            scenarioConfig.lerpFactor,
        initialWorld.shared.position.z +
          ((getDOMState { left := 560, top := 360, width := 80, height := 80 }
                scenarioConfig.viewport).1.z -
              initialWorld.shared.position.z) *
            scenarioConfig.lerpFactor⟩ :=
  (animate_lerp_recurrence.1 scenarioConfig initialWorld
    { left := 560, top := 360, width := 80, height := 80 } rfl).1

/-! ## C8 : a tick with a missing anchor is a safe no-op -/

/-- C8: a tick that runs while the tracked element reference is unset
is total (no exception in the embedding) and leaves the entire world —
in particular the shared position and scale — unchanged. -/
theorem tick_missing_anchor_safe :
    ∀ (cfg : LoopConfig) (w : World), cfg.track = none →
      animate cfg w = w ∧
      (animate cfg w).shared.position = w.shared.position ∧
      (animate cfg w).shared.scale = w.shared.scale := by
  intro cfg w h
  have he := animate_of_track_none cfg w h
  exact ⟨he, by rw [he], by rw [he]⟩

/-- Witness for C8: the no-op tick at a concrete unset configuration
and the fresh world. -/
theorem tick_missing_anchor_safe_witness :
    unsetConfig.track = none ∧
      (animate unsetConfig initialWorld = initialWorld ∧
       (animate unsetConfig initialWorld).shared.position =
         initialWorld.shared.position ∧
       (animate unsetConfig initialWorld).shared.scale =
         initialWorld.shared.scale) :=
  ⟨rfl, tick_missing_anchor_safe unsetConfig initialWorld rfl⟩

/-! ## C9 : the visibility flag only gates `visible` -/

/-- C9: two runs of a tick that differ only in the `inViewport` flag
produce identical position and scale values in the shared state and in
every proxy update pushed; the flag only gates the `visible` field. -/
theorem inViewport_noninterference :
    ∀ (i : ℕ) (tr : Option Rect) (vp : Viewport) (a : ℚ) (b b' : Bool)
      (w : World),
      (animate ⟨i, tr, vp, a, b⟩ w).shared.position =
        (animate ⟨i, tr, vp, a, b'⟩ w).shared.position ∧
      (animate ⟨i, tr, vp, a, b⟩ w).shared.scale =
        (animate ⟨i, tr, vp, a, b'⟩ w).shared.scale ∧
      (animate ⟨i, tr, vp, a, b⟩ w).proxyUpdates.map
          (fun u => (u.position, u.scale)) =
        (animate ⟨i, tr, vp, a, b'⟩ w).proxyUpdates.map
          (fun u => (u.position, u.scale)) := by
  intro i tr vp a b b' w
  cases tr with
  | none => exact ⟨rfl, rfl, rfl⟩
  | some elem => simp [animate, requestAnimationFrame]

/-! ## C10 : a remount registers with the current singleton values -/

/-- C10: the render-proxy registration made on mount takes its initial
position and scale props from the current shared singleton state, so a
remount after navigation resumes from the last interpolated values; in
particular remounting after one scenario tick registers with position
`(10, 0, 0)`, not the default `(0, 0, 0)`. -/
theorem mount_resumes_from_singleton :
    (∀ (id : String) (s : SharedMeshState) (b : Bool),
      (mountAnimatedMesh id (some s) b).1.position = s.position ∧
      (mountAnimatedMesh id (some s) b).1.scale = s.scale ∧
      (mountAnimatedMesh id (some s) b).1.key = id ∧
      (mountAnimatedMesh id (some s) b).1.dispose = false ∧
      (mountAnimatedMesh id (some s) b).2 = some s) ∧
    (mountAnimatedMesh "mesh"
        (some (animate scenarioConfig initialWorld).shared) true).1.position =
      ⟨10, 0, 0⟩ ∧
    (mountAnimatedMesh "mesh"
        (some (animate scenarioConfig initialWorld).shared) true).1.position ≠
      initialSharedMeshState.position := by
  refine ⟨fun id s b => ⟨rfl, rfl, rfl, rfl, rfl⟩, ?_, ?_⟩
  · simp only [mountAnimatedMesh, getSharedMeshState, registerMesh, animate,
      scenarioConfig, initialWorld, initialSharedMeshState, getDOMState,
      Vector3.lerp, requestAnimationFrame, Vec3.mk.injEq]
    norm_num
  · simp only [mountAnimatedMesh, getSharedMeshState, registerMesh, animate,
      scenarioConfig, initialWorld, initialSharedMeshState, getDOMState,
      Vector3.lerp, requestAnimationFrame, Vec3.mk.injEq, ne_eq]
    norm_num

/-! ## C3 : the single-active-loop invariant -/

theorem schedInv_of_pending_nil (w : World) (hp : w.pending = [])
    (hn : 0 < w.nextHandle) : SchedInv w := by
  refine ⟨?_, ?_, hn⟩
  · rw [hp]
    simp
  · intro p hpm
    rw [hp] at hpm
    simp at hpm

/-- C3: the Start step cancels any prior stored handle before
scheduling, so the at-most-one-pending-callback invariant holds of the
fresh world and is preserved by starting, firing and cleanup; after a
second loop starts, every surviving pending callback belongs to the new
loop, and firing any handle on behalf of a different loop instance is a
no-op (the old chain performs no further mutations). -/
theorem single_active_loop :
    SchedInv initialWorld ∧
    ∀ (cfg : LoopConfig) (w : World), SchedInv w →
      SchedInv (startLoop cfg w) ∧
      (∀ h : ℕ, SchedInv (fireCallback cfg w h)) ∧
      SchedInv (cleanupLoop w) ∧
      (∀ p ∈ (startLoop cfg w).pending, p.2 = cfg.loopId) ∧
      (∀ (c : LoopConfig) (h : ℕ), c.loopId ≠ cfg.loopId →
        fireCallback c (startLoop cfg w) h = startLoop cfg w) := by
  refine ⟨schedInv_initialWorld, ?_⟩
  intro cfg w hw
  have hp1 := startLoop_cleared_pending w hw
  have hn1 : (if w.shared.animationId ≠ 0
      then cancelAnimationFrame w w.shared.animationId
      else w).nextHandle = w.nextHandle := by
    by_cases h : w.shared.animationId ≠ 0 <;>
      simp [cancelAnimationFrame, h]
  have hstart : startLoop cfg w =
      animate cfg (if w.shared.animationId ≠ 0
        then cancelAnimationFrame w w.shared.animationId
        else w) := rfl
  have h1 := schedInv_animate cfg _ hp1 (by rw [hn1]; exact hw.2.2)
  refine ⟨hstart ▸ h1.1, ?_, ?_, hstart ▸ h1.2, ?_⟩
  · intro h
    by_cases hm : (h, cfg.loopId) ∈ w.pending
    · have hfe : fireCallback cfg w h =
          animate cfg { w with pending := w.pending.filter (fun p => p.1 != h) } := by
        simp only [fireCallback, if_pos hm]
      have hall : ∀ p ∈ w.pending, p.1 = h := by
        intro p hp
        rw [(hw.2.1 p hp).1]
        exact ((hw.2.1 (h, cfg.loopId) hm).1).symm
      have hp2 : ({ w with pending := w.pending.filter (fun p => p.1 != h) } : World).pending = [] :=
        filter_ne_of_all_eq w.pending h hall
      rw [hfe]
      exact (schedInv_animate cfg _ hp2 hw.2.2).1
    · rw [fireCallback_not_mem cfg w h hm]
      exact hw
  · refine schedInv_of_pending_nil _ (cleanupLoop_pending_nil w hw) ?_
    have : (cleanupLoop w).nextHandle = w.nextHandle := by
      by_cases h : w.shared.animationId ≠ 0 <;>
        simp [cleanupLoop, cancelAnimationFrame, h]
    rw [this]
    exact hw.2.2
  · intro c h hne
    apply fireCallback_not_mem
    intro hmem
    exact hne (h1.2 (h, c.loopId) (hstart ▸ hmem))

/-- Witness for C3: the invariant holds of the fresh world, and after
the scenario loop starts there, firing a frame callback on behalf of
the other loop instance changes nothing. -/
theorem single_active_loop_witness :
    SchedInv initialWorld ∧
    fireCallback unsetConfig (startLoop scenarioConfig initialWorld) 1 =
      startLoop scenarioConfig initialWorld :=
  ⟨single_active_loop.1,
   (single_active_loop.2 scenarioConfig initialWorld
      single_active_loop.1).2.2.2.2 unsetConfig 1 (by decide)⟩

/-! ## C5 : cancellation is idempotent -/

/-- C5: the cleanup step always leaves `animationId = 0`; running it
twice equals running it once, with no additional `cancelAnimationFrame`
call; cancelling with no stored handle is a complete no-op; and under
the scheduling invariant, no frame callback fires after cleanup, so the
cancelled instance never mutates the shared state again. -/
theorem cancel_idempotent :
    ∀ w : World,
      (cleanupLoop w).shared.animationId = 0 ∧
      (cleanupLoop (cleanupLoop w)).shared.animationId = 0 ∧
      cleanupLoop (cleanupLoop w) = cleanupLoop w ∧
      (cleanupLoop (cleanupLoop w)).cancelCalls = (cleanupLoop w).cancelCalls ∧
      (w.shared.animationId = 0 → cleanupLoop w = w) ∧
      (SchedInv w → ∀ (cfg : LoopConfig) (h : ℕ),
        fireCallback cfg (cleanupLoop w) h = cleanupLoop w) := by
  intro w
  have h2 : cleanupLoop (cleanupLoop w) = cleanupLoop w :=
    cleanupLoop_of_id_zero _ (cleanupLoop_animationId w)
  refine ⟨cleanupLoop_animationId w, cleanupLoop_animationId _, h2,
    by rw [h2], cleanupLoop_of_id_zero w, ?_⟩
  intro hw cfg h
  exact fireCallback_of_pending_nil cfg _ h (cleanupLoop_pending_nil w hw)

/-- Witness for C5: cancellation at the fresh world, whose handle is
unset, is a no-op, and no callback fires after it. -/
theorem cancel_idempotent_witness :
    initialWorld.shared.animationId = 0 ∧
    SchedInv initialWorld ∧
    cleanupLoop initialWorld = initialWorld ∧
    fireCallback scenarioConfig (cleanupLoop initialWorld) 1 =
      cleanupLoop initialWorld :=
  ⟨rfl, schedInv_initialWorld,
   (cancel_idempotent initialWorld).2.2.2.2.1 rfl,
   (cancel_idempotent initialWorld).2.2.2.2.2 schedInv_initialWorld
     scenarioConfig 1⟩

/-! ## C4 : a tick with an unset element does NOT re-schedule -/

/-- Counterexample to C4 as stated: in a world whose only pending
frame callback (handle `7`) belongs to the unset-track loop, firing it
leaves the pending list empty and requests no new frame
(`nextHandle` unchanged) — the tick does not re-schedule, so the loop
instance does not stay alive. -/
theorem tick_unset_reschedules_cex :
    unsetConfig.track = none ∧
    (7, unsetConfig.loopId) ∈ unsetWorld.pending ∧
    (fireCallback unsetConfig unsetWorld 7).pending = [] ∧
    (fireCallback unsetConfig unsetWorld 7).nextHandle =
      unsetWorld.nextHandle := by
  refine ⟨rfl, by decide, rfl, rfl⟩

/-- C4 (amended): a tick in which the tracked element reference is
unset skips the geometry/interpolation update (shared state untouched)
and does not re-schedule a next tick: no new frame is requested and the
fired handle is simply consumed, so the loop instance halts until a
remount restarts it. -/
theorem tick_unset_halts :
    ∀ (cfg : LoopConfig) (w : World) (h : ℕ), cfg.track = none →
      (fireCallback cfg w h).shared = w.shared ∧
      (fireCallback cfg w h).nextHandle = w.nextHandle ∧
      (fireCallback cfg w h).pending =
        (if (h, cfg.loopId) ∈ w.pending
          then w.pending.filter (fun p => p.1 != h)
          else w.pending) := by
  intro cfg w h htr
  by_cases hm : (h, cfg.loopId) ∈ w.pending
  · have hfe : fireCallback cfg w h =
        { w with pending := w.pending.filter (fun p => p.1 != h) } := by
      simp only [fireCallback, if_pos hm]
      exact animate_of_track_none cfg _ htr
    rw [hfe, if_pos hm]
    exact ⟨rfl, rfl, rfl⟩
  · rw [fireCallback_not_mem cfg w h hm, if_neg hm]
    exact ⟨rfl, rfl, rfl⟩

/-- Witness for the amended C4 at the concrete unset-track world. -/
theorem tick_unset_halts_witness :
    unsetConfig.track = none ∧
    ((fireCallback unsetConfig unsetWorld 7).shared = unsetWorld.shared ∧
     (fireCallback unsetConfig unsetWorld 7).nextHandle =
       unsetWorld.nextHandle ∧
     (fireCallback unsetConfig unsetWorld 7).pending =
       (if (7, unsetConfig.loopId) ∈ unsetWorld.pending
         then unsetWorld.pending.filter (fun p => p.1 != 7)
         else unsetWorld.pending)) :=
  ⟨rfl, tick_unset_halts unsetConfig unsetWorld 7 rfl⟩

/-! ## C7 : geometric convergence of the interpolation -/

theorem lerp_component_step (x t : ℚ) :
    |x + (t - x) * (1 / 10) - t| = |x - t| * (9 / 10) := by
  have h : x + (t - x) * (1 / 10) - t = (x - t) * (9 / 10) := by ring
  rw [h, abs_mul, abs_of_nonneg (by norm_num : (0:ℚ) ≤ 9 / 10)]

theorem lerp_iter_bound (f : ℕ → ℚ) (t : ℚ)
    (hstep : ∀ n, f (n + 1) = f n + (t - f n) * (1 / 10)) :
    ∀ n, |f n - t| ≤ |f 0 - t| * (9 / 10) ^ n := by
  intro n
  induction n with
  | zero => simp
  | succ k ih =>
    rw [hstep k, lerp_component_step]
    calc |f k - t| * (9 / 10) ≤ |f 0 - t| * (9 / 10) ^ k * (9 / 10) :=
          mul_le_mul_of_nonneg_right ih (by norm_num)
      _ = |f 0 - t| * (9 / 10) ^ (k + 1) := by ring

/-- C7: with the default smoothing factor `0.1` and a fixed tracked
element, iterating the tick `n` times brings every component of the
shared position and scale within `|initial - target| * 0.9 ^ n` of the
sampled target. -/
theorem convergence_geometric :
    ∀ (cfg : LoopConfig) (elem : Rect) (w : World) (n : ℕ),
      cfg.track = some elem → cfg.lerpFactor = 1 / 10 →
      (|((animate cfg)^[n] w).shared.position.x -
          (getDOMState elem cfg.viewport).1.x| ≤
        |w.shared.position.x - (getDOMState elem cfg.viewport).1.x| *
          (9 / 10) ^ n) ∧
      (|((animate cfg)^[n] w).shared.position.y -
          (getDOMState elem cfg.viewport).1.y| ≤
        |w.shared.position.y - (getDOMState elem cfg.viewport).1.y| *
          (9 / 10) ^ n) ∧
      (|((animate cfg)^[n] w).shared.position.z -
          (getDOMState elem cfg.viewport).1.z| ≤
        |w.shared.position.z - (getDOMState elem cfg.viewport).1.z| *
          (9 / 10) ^ n) ∧
      (|((animate cfg)^[n] w).shared.scale.x -
          (getDOMState elem cfg.viewport).2.x| ≤
        |w.shared.scale.x - (getDOMState elem cfg.viewport).2.x| *
          (9 / 10) ^ n) ∧
      (|((animate cfg)^[n] w).shared.scale.y -
          (getDOMState elem cfg.viewport).2.y| ≤
        |w.shared.scale.y - (getDOMState elem cfg.viewport).2.y| *
          (9 / 10) ^ n) ∧
      (|((animate cfg)^[n] w).shared.scale.z -
          (getDOMState elem cfg.viewport).2.z| ≤
        |w.shared.scale.z - (getDOMState elem cfg.viewport).2.z| *
          (9 / 10) ^ n) := by
  intro cfg elem w n htr ha
  have key : ∀ (sel : World → ℚ) (tv : ℚ),
      (∀ u : World, sel (animate cfg u) = sel u + (tv - sel u) * (1 / 10)) →
      |sel ((animate cfg)^[n] w) - tv| ≤ |sel w - tv| * (9 / 10) ^ n := by
    intro sel tv hsel
    have hb := lerp_iter_bound (fun k => sel ((animate cfg)^[k] w)) tv
      (fun k => by
        simp only [Function.iterate_succ_apply']
        exact hsel _) n
    simpa using hb
  refine ⟨?_, ?_, ?_, ?_, ?_, ?_⟩
  · exact key (fun u => u.shared.position.x) _ (fun u => by
      dsimp only
      rw [(animate_shared_of_track cfg u elem htr).1, ha]
      simp [Vector3.lerp])
  · exact key (fun u => u.shared.position.y) _ (fun u => by
      dsimp only
      rw [(animate_shared_of_track cfg u elem htr).1, ha]
      simp [Vector3.lerp])
  · exact key (fun u => u.shared.position.z) _ (fun u => by
      dsimp only
      rw [(animate_shared_of_track cfg u elem htr).1, ha]
      simp [Vector3.lerp])
  · exact key (fun u => u.shared.scale.x) _ (fun u => by
      dsimp only
      rw [(animate_shared_of_track cfg u elem htr).2, ha]
      simp [Vector3.lerp])
  · exact key (fun u => u.shared.scale.y) _ (fun u => by
      dsimp only
      rw [(animate_shared_of_track cfg u elem htr).2, ha]
      simp [Vector3.lerp])
  · exact key (fun u => u.shared.scale.z) _ (fun u => by
      dsimp only
      rw [(animate_shared_of_track cfg u elem htr).2, ha]
      simp [Vector3.lerp])

/-- Witness for C7: the geometric bound after two scenario ticks from
the fresh world. -/
theorem convergence_geometric_witness :
    scenarioConfig.track =
      some { left := 560, top := 360, width := 80, height := 80 } ∧
    scenarioConfig.lerpFactor = 1 / 10 ∧
    ((|((animate scenarioConfig)^[2] initialWorld).shared.position.x -
        (getDOMState { left := 560, top := 360, width := 80, height := 80 }
          scenarioConfig.viewport).1.x| ≤
      |initialWorld.shared.position.x -
        (getDOMState { left := 560, top := 360, width := 80, height := 80 }
          scenarioConfig.viewport).1.x| * (9 / 10) ^ 2) ∧
     (|((animate scenarioConfig)^[2] initialWorld).shared.position.y -
        (getDOMState { left := 560, top := 360, width := 80, height := 80 }
          scenarioConfig.viewport).1.y| ≤
      |initialWorld.shared.position.y -
        (getDOMState { left := 560, top := 360, width := 80, height := 80 }
          scenarioConfig.viewport).1.y| * (9 / 10) ^ 2) ∧
     (|((animate scenarioConfig)^[2] initialWorld).shared.position.z -
        (getDOMState { left := 560, top := 360, width := 80, height := 80 }
          scenarioConfig.viewport).1.z| ≤
      |initialWorld.shared.position.z -
        (getDOMState { left := 560, top := 360, width := 80, height := 80 }
          scenarioConfig.viewport).1.z| * (9 / 10) ^ 2) ∧
     (|((animate scenarioConfig)^[2] initialWorld).shared.scale.x -
        (getDOMState { left := 560, top := 360, width := 80, height := 80 }
          scenarioConfig.viewport).2.x| ≤
      |initialWorld.shared.scale.x -
        (getDOMState { left := 560, top := 360, width := 80, height := 80 }
          scenarioConfig.viewport).2.x| * (9 / 10) ^ 2) ∧
     (|((animate scenarioConfig)^[2] initialWorld).shared.scale.y -
        (getDOMState { left := 560, top := 360, width := 80, height := 80 }
          scenarioConfig.viewport).2.y| ≤
      |initialWorld.shared.scale.y -
        (getDOMState { left := 560, top := 360, width := 80, height := 80 }
          scenarioConfig.viewport).2.y| * (9 / 10) ^ 2) ∧
     (|((animate scenarioConfig)^[2] initialWorld).shared.scale.z -
        (getDOMState { left := 560, top := 360, width := 80, height := 80 }
          scenarioConfig.viewport).2.z| ≤
      |initialWorld.shared.scale.z -
        (getDOMState { left := 560, top := 360, width := 80, height := 80 }
          scenarioConfig.viewport).2.z| * (9 / 10) ^ 2)) :=
  ⟨rfl, rfl,
   convergence_geometric scenarioConfig
     { left := 560, top := 360, width := 80, height := 80 }
     initialWorld 2 rfl rfl⟩
